import Mathlib

/-!
Verification of the ConstructAI Hunyuan3D job-orchestration server
(`src/hunyuan3d/real_hunyuan3d_server.py`, with the legacy variant
`src/python-services/hunyuan3d-server.py` modelled where a claim cites it).

The embedding follows the Python source:
* the per-job record held in the global `job_status` dict becomes `JobRecord`
  (absent dict keys become `Option.none`; `dict.update` merges fields without
  deleting existing ones, which the stage-update functions mirror);
* `process_real_3d_generation` is a straight-line sequence of `job_status`
  updates separated by fallible external calls; it becomes a trace function
  `processTrace` parameterised by the point at which an exception is raised
  (`none` = no stage raises);
* external collaborators (PIL, cv2, the Hunyuan3D pipelines, trimesh meshes,
  the filesystem) are modelled at their interface boundary: a mesh is the
  tuple of attributes the server inspects, contour detection yields a list of
  contour areas, and the filesystem is the list of paths actually written.
-/

namespace ConstructAI

/-- HTTP error as raised by `HTTPException(status_code=..., detail=...)`. -/
structure HErr where
  code : Nat
  detail : String
deriving DecidableEq, Repr

/-- Job status values written by the server: `"queued"`, `"processing"`,
`"completed"`, `"failed"`. -/
inductive Status where
  | queued
  | processing
  | completed
  | failed
deriving DecidableEq, Repr

/-- The attributes of a generated `trimesh.Trimesh` that the server inspects.
`hasVisualMaterial` models `hasattr(mesh, 'visual') and
hasattr(mesh.visual, 'material')` (the guard in `save_real_generated_model`);
`vertices` and `faces` are the counts read for `mesh_stats`. -/
structure Mesh where
  hasVisualMaterial : Bool
  vertices : Nat
  faces : Nat
deriving DecidableEq, Repr

/-- The `result` value stored on a completed job: the artifact map returned by
`save_real_generated_model` (kind-suffixed keys to path/url strings) together
with the mesh statistics and the `include_textures` generation parameter. -/
structure GenResult where
  paths : List (String × String)
  vertices : Nat
  faces : Nat
  hasTexture : Bool
  includeTextures : Bool
deriving DecidableEq, Repr

/-- Default used for `status.get("result", {})`. -/
def emptyGenResult : GenResult :=
  { paths := [], vertices := 0, faces := 0, hasTexture := false,
    includeTextures := false }

/-- One job record of the `job_status` dict. Keys the Python dict may lack
(`result`, `error`, `completed_at`, `failed_at`) are `Option`s; `dict.update`
never removes a key, so stage updates only ever set fields. Timestamps carry
an abstract tick (their value is never claimed, only their presence). -/
structure JobRecord where
  status : Status
  progress : Nat
  message : String
  createdAt : Nat
  result : Option GenResult
  error : Option String
  completedAt : Option Nat
  failedAt : Option Nat
deriving DecidableEq, Repr

/-- The record inserted by `POST /generate3d` before background dispatch:
`{"status": "queued", "progress": 0, "message": "Job queued for processing", ...}`. -/
def initialRecord : JobRecord :=
  { status := .queued, progress := 0, message := "Job queued for processing",
    createdAt := 0, result := none, error := none,
    completedAt := none, failedAt := none }

/-! ### Artifact materialization (`save_real_generated_model`) -/

/-- Model of `save_real_generated_model`: returns the artifact map (the
`paths` dict) paired with the list of file paths actually written to disk
(`mesh.export` twice and `image.save`). The texture branch runs whenever
`hasattr(mesh, 'visual') and hasattr(mesh.visual, 'material')` holds: it adds
`texture_path`/`texture_url` to the map but writes no file (the body only
computes the path; the save itself is an unimplemented comment in the source). -/
def saveRealGeneratedModel (jobId : String) (mesh : Mesh) :
    List (String × String) × List String :=
  let dir := "./outputs/" ++ jobId
  let glbPath := dir ++ "/" ++ jobId ++ ".glb"
  let objPath := dir ++ "/" ++ jobId ++ ".obj"
  let imagePath := dir ++ "/" ++ jobId ++ "_processed.png"
  let basePaths : List (String × String) :=
    [("model_glb_path", glbPath),
     ("model_obj_path", objPath),
     ("image_path", imagePath),
     ("model_url", "/download/" ++ jobId ++ "/model_glb"),
     ("obj_url", "/download/" ++ jobId ++ "/model_obj"),
     ("image_url", "/download/" ++ jobId ++ "/image")]
  let written := [glbPath, objPath, imagePath]
  if mesh.hasVisualMaterial then
    (basePaths ++
      [("texture_path", dir ++ "/" ++ jobId ++ "_texture.png"),
       ("texture_url", "/download/" ++ jobId ++ "/texture")],
     written)
  else
    (basePaths, written)

/-! ### The orchestrator (`process_real_3d_generation`)

The body is eight `job_status[job_id].update(...)` calls separated by the
fallible external operations (image decode, model load, background removal,
shape generation, mesh cleanup, optional texturing, artifact save, and the
final GPU cache clear, which also sits inside the `try` block *after* the
completed update). An exception at fallible operation `k` (0-based, after
update `k`) lands in the `except` handler, whose single `update` sets the
failed fields. -/

/-- Update 0: `status=processing, progress=5`. -/
def updStart (r : JobRecord) : JobRecord :=
  { r with
    status := .processing, progress := 5,
    message := "Loading and preprocessing image..." }

/-- Update 1: `progress=10`. -/
def updEnsure (r : JobRecord) : JobRecord :=
  { r with
    progress := 10, message := "Ensuring models are loaded..." }

/-- Update 2: `progress=15`. -/
def updRemoveBg (r : JobRecord) : JobRecord :=
  { r with
    progress := 15, message := "Removing background..." }

/-- Update 3: `progress=25`. -/
def updGenerate (r : JobRecord) : JobRecord :=
  { r with
    progress := 25,
    message := "Generating 3D mesh using Hunyuan3D-DiT..." }

/-- Update 4: `progress=70`. -/
def updPostProcess (r : JobRecord) : JobRecord :=
  { r with
    progress := 70, message := "Post-processing mesh..." }

/-- Update 5: `progress=80`; message depends on `include_textures`. -/
def updTexture (inc : Bool) (r : JobRecord) : JobRecord :=
  { r with
    progress := 80,
    message := if inc then "Generating textures..." else "Finalizing mesh..." }

/-- Update 6: `progress=90`. -/
def updSaving (r : JobRecord) : JobRecord :=
  { r with
    progress := 90, message := "Saving results..." }

/-- Update 7: the terminal completed update — status, progress 100,
`completed_at`, and `result` (artifact paths from
`save_real_generated_model` plus mesh stats and generation params) are
written in one `dict.update`. `has_texture` is
`include_textures and hasattr(mesh, 'visual')`; a `trimesh.Trimesh` always
has a `visual` attribute, so it reduces to `include_textures`. -/
def updComplete (inc : Bool) (mesh : Mesh) (jobId : String) (r : JobRecord) :
    JobRecord :=
  { r with
    status := .completed, progress := 100,
    message := "Real Hunyuan3D-2 generation completed successfully!",
    completedAt := some 7,
    result := some
      { paths := (saveRealGeneratedModel jobId mesh).1,
        vertices := mesh.vertices, faces := mesh.faces,
        hasTexture := inc, includeTextures := inc } }

/-- The `except` handler's update: `status=failed, progress=0`, the error
message, the `error` payload and `failed_at` — applied by `dict.update` to
whatever record is current, never deleting already-present keys. -/
def failUpdate (err : String) (r : JobRecord) : JobRecord :=
  { r with
    status := .failed, progress := 0,
    message := "Error: " ++ err, error := some err, failedAt := some 8 }

/-- The eight updates of `process_real_3d_generation` in source order. -/
def updates (inc : Bool) (mesh : Mesh) (jobId : String) :
    List (JobRecord → JobRecord) :=
  [updStart, updEnsure, updRemoveBg, updGenerate, updPostProcess,
   updTexture inc, updSaving, updComplete inc mesh jobId]

/-- All snapshots of a job record on the exception-free path: the queued
record followed by the state after each of the eight updates. -/
def allStates (inc : Bool) (mesh : Mesh) (jobId : String) : List JobRecord :=
  (updates inc mesh jobId).scanl (fun r f => f r) initialRecord

/-- Observable snapshots of one job's record, as a function of where (if
anywhere) an exception is raised. Fallible operation `k : Fin 8` runs after
update `k` (operation 7 is the `torch.cuda.empty_cache()` call placed after
the completed update but still inside the `try`); raising there truncates the
update sequence after update `k` and appends the `except` handler's update. -/
def processTrace (inc : Bool) (mesh : Mesh) (jobId err : String) :
    Option (Fin 8) → List JobRecord
  | none => allStates inc mesh jobId
  | some k =>
      (allStates inc mesh jobId).take (k.val + 2) ++
      [failUpdate err ((allStates inc mesh jobId).getD (k.val + 1) initialRecord)]

/-! ### API endpoints -/

/-- Model of `GET /result/{job_id}` (`get_job_result`): 404 when the id is
unknown, 400 (`"Job not completed yet"`) when the job exists but is not
completed, else `status.get("result", {})`. -/
def getJobResult (store : List (String × JobRecord)) (jobId : String) :
    Except HErr GenResult :=
  match store.lookup jobId with
  | none => .error { code := 404, detail := "Job not found" }
  | some r =>
      if r.status = .completed then
        .ok (r.result.getD emptyGenResult)
      else
        .error { code := 400, detail := "Job not completed yet" }

/-- Model of `GET /download/{job_id}/{file_type}` (`download_result`).
`files` is the set of paths present on disk; the handler looks up
`f"{file_type}_path"` in the completed job's result and 404s unless that
path exists on disk. On success it serves the file under the name
`f"{job_id}_{file_type}"`. -/
def downloadResult (store : List (String × JobRecord)) (files : List String)
    (jobId fileType : String) : Except HErr (String × String) :=
  match store.lookup jobId with
  | none => .error { code := 404, detail := "Job not found" }
  | some r =>
      if r.status = .completed then
        match (r.result.getD emptyGenResult).paths.lookup (fileType ++ "_path") with
        | none => .error { code := 404, detail := fileType ++ " file not found" }
        | some p =>
            if files.contains p then .ok (p, jobId ++ "_" ++ fileType)
            else .error { code := 404, detail := fileType ++ " file not found" }
      else
        .error { code := 400, detail := "Job not completed yet" }

/-- Model of `content_type.startswith('image/')`: the character sequence
`image/` is a prefix of the content type. -/
def contentTypeIsImage (ct : String) : Bool :=
  "image/".data.isPrefixOf ct.data

/-- Model of Python's `str(e)` for a caught `HTTPException`, per Starlette's
`HTTPException.__str__` (`f"{status_code}: {detail}"`). Only the fact that
the original detail is stringified matters to the claims, not the exact
format. -/
def httpExcStr (e : HErr) : String :=
  toString e.code ++ ": " ++ e.detail

/-- The submit handlers' `except Exception as e` wrapper: FastAPI's
`HTTPException` subclasses `Exception`, so an in-`try`
`HTTPException(status_code=400, ...)` is caught by the handler's own
catch-all and re-raised as `HTTPException(status_code=500, detail=str(e))` —
the caller observes a 500 server error, not the inner 400. -/
def wrapServerError (e : HErr) : HErr :=
  { code := 500, detail := httpExcStr e }

/-- Response body of a successful `POST /generate3d`. -/
structure SubmitResponse where
  success : Bool
  job_id : String
  status : String
  message : String
deriving DecidableEq, Repr

/-- A background task queued via `background_tasks.add_task`, recorded with
the job id and parameters it will run with (only `include_textures` matters
to the claims). -/
structure PendingTask where
  jobId : String
  includeTextures : Bool
deriving DecidableEq, Repr

/-- Model of `POST /generate3d` (`generate_3d_model`) of the real server.
`freshId` stands for the `uuid.uuid4()` value. The handler validates the
content type, inserts the queued record into `job_status`, appends the
background task (which is *not* executed here — FastAPI runs it only after
the response is sent), and returns `{job_id, status: "queued"}`. On a
non-image content type it raises a 400 before touching the store, but that
`HTTPException` is caught by the handler's own `except Exception` and
re-raised as a 500 via `wrapServerError`. The full post-state (response,
store, task queue) is returned so that "store unchanged" is expressible on
the error path. -/
def generate3dModel (store : List (String × JobRecord))
    (tasks : List PendingTask) (contentType freshId : String) (inc : Bool) :
    Except HErr SubmitResponse × List (String × JobRecord) × List PendingTask :=
  if contentTypeIsImage contentType then
    (.ok { success := true, job_id := freshId, status := "queued",
           message := "Real Hunyuan3D-2 generation started" },
     (freshId, initialRecord) :: store,
     tasks ++ [{ jobId := freshId, includeTextures := inc }])
  else
    (.error (wrapServerError
       { code := 400, detail := "Only image files are supported" }),
     store, tasks)

/-- Job record of the legacy variant `src/python-services/hunyuan3d-server.py`
(`conversion_jobs` entries; progress is a float there). -/
structure PSJob where
  status : String
  progress : ℚ
  message : String
deriving DecidableEq, Repr

/-- The initial record the legacy handler stores:
`{"status": "pending", "progress": 0.0, "message": "Job created", ...}`. -/
def psInitialRecord : PSJob :=
  { status := "pending", progress := 0, message := "Job created" }

/-- Model of `POST /generate3d` of the legacy variant: a valid submission
stores the job as `"pending"` and returns `{"job_id": ..., "status":
"started"}`; a non-image content type raises a 400 before the job is created
— the `conversion_jobs` store and the task queue are untouched — but the
handler's `except Exception` re-raises that 400 as a 500 via
`wrapServerError`. -/
def generate3dModelPS (store : List (String × PSJob)) (tasks : List String)
    (contentType freshId : String) :
    Except HErr (String × String) × List (String × PSJob) × List String :=
  if contentTypeIsImage contentType then
    (.ok (freshId, "started"),
     (freshId, psInitialRecord) :: store,
     tasks ++ [freshId])
  else
    (.error (wrapServerError { code := 400, detail := "File must be an image" }),
     store, tasks)

/-! ### Feature Estimator (`analyze_image_advanced`)

The image-to-contour step (Canny edge detection plus
`cv2.findContours(..., RETR_EXTERNAL, ...)`) is an external collaborator; its
output is the list of contour areas (`cv2.contourArea` returns a double, so
areas are rationals). Everything from the area partition onwards is the
server's own arithmetic and is embedded exactly. -/

/-- Contours with `cv2.contourArea(c) > 100`. -/
def largeContours (areas : List ℚ) : List ℚ :=
  areas.filter (fun a => decide (100 < a))

/-- Contours with `50 < cv2.contourArea(c) <= 100`. -/
def mediumContours (areas : List ℚ) : List ℚ :=
  areas.filter (fun a => decide (50 < a) && decide (a ≤ 100))

/-- Contours with `10 < cv2.contourArea(c) <= 50`. -/
def smallContours (areas : List ℚ) : List ℚ :=
  areas.filter (fun a => decide (10 < a) && decide (a ≤ 50))

/-- `estimated_walls = max(4, len(large_contours) // 2)`. -/
def estimatedWalls (areas : List ℚ) : Nat :=
  max 4 ((largeContours areas).length / 2)

/-- `estimated_doors = max(1, len(medium_contours) // 3)`. -/
def estimatedDoors (areas : List ℚ) : Nat :=
  max 1 ((mediumContours areas).length / 3)

/-- `estimated_windows = max(2, len(small_contours) // 2)`. -/
def estimatedWindows (areas : List ℚ) : Nat :=
  max 2 ((smallContours areas).length / 2)

/-- `estimated_rooms = max(1, estimated_walls // 3)`. -/
def estimatedRooms (areas : List ℚ) : Nat :=
  max 1 (estimatedWalls areas / 3)

/-- `complexity_score = min(100, (total_contours + len(large_contours)*2) / 10)`
(Python true division, hence a rational). -/
def complexityScore (areas : List ℚ) : ℚ :=
  min 100 (((areas.length : ℚ) + 2 * ((largeContours areas).length : ℚ)) / 10)

/-- The element counts of a feature analysis. -/
structure FeatureCounts where
  walls : Nat
  doors : Nat
  windows : Nat
  rooms : Nat
deriving DecidableEq, Repr

/-- The slice of the analysis payload the claims are about: the estimated
element counts, the complexity score, and the `error` key that is present
only in the fallback payload of the `except` branch. -/
structure AnalysisResult where
  counts : FeatureCounts
  score : ℚ
  errorMsg : Option String
deriving DecidableEq, Repr

/-- The `try`-body of `analyze_image_advanced` applied to the detected
contour areas: the normal analysis payload. -/
def analyzeCore (areas : List ℚ) : AnalysisResult :=
  { counts :=
      { walls := estimatedWalls areas, doors := estimatedDoors areas,
        windows := estimatedWindows areas, rooms := estimatedRooms areas },
    score := complexityScore areas,
    errorMsg := none }

/-- The fallback payload returned by the `except` branch:
`estimated_walls=8, doors=3, windows=6, rooms=4, complexity_score=50`, plus
the error string. -/
def fallbackAnalysis (e : String) : AnalysisResult :=
  { counts := { walls := 8, doors := 3, windows := 6, rooms := 4 },
    score := 50, errorMsg := some e }

/-- Model of `analyze_image_advanced`. The whole body sits in a
`try`/`except Exception` whose handler returns the fallback payload, so the
function is total: `failure` injects the exception an internal external call
(background remover, cv2 conversion, ...) may raise, `none` meaning the body
ran through. -/
def analyzeImageAdvanced (failure : Option String) (areas : List ℚ) :
    AnalysisResult :=
  match failure with
  | some e => fallbackAnalysis e
  | none => analyzeCore areas

/-! ### Model loading (`ensure_models_loaded` / `load_hunyuan3d_models`)

The pipelines are module-level globals. `ensure_models_loaded` is a
check-then-load on the `model_loaded` flag; `load_hunyuan3d_models` guards
each pipeline individually with an `is None` check. Neither coroutine
contains an `await` that can suspend (`load_hunyuan3d_models` has no `await`
in its body at all), so under asyncio's cooperative scheduler each call runs
as one atomic step; two concurrent callers therefore execute in one of the
two serial orders, which `schedulesOfTwo` enumerates. The `...LoadCount`
fields count the underlying constructor / `from_pretrained` initializations. -/

/-- The module-level model state: which globals are non-`None`, the
`model_loaded` flag, and how many times each underlying initialization ran. -/
structure ModelState where
  backgroundRemover : Bool
  shapePipeline : Bool
  texturePipeline : Bool
  modelLoaded : Bool
  bgLoadCount : Nat
  shapeLoadCount : Nat
  textureLoadCount : Nat
deriving DecidableEq, Repr

/-- State at process start: all pipeline globals are `None`,
`model_loaded = False`. -/
def initialModelState : ModelState :=
  { backgroundRemover := false, shapePipeline := false,
    texturePipeline := false, modelLoaded := false,
    bgLoadCount := 0, shapeLoadCount := 0, textureLoadCount := 0 }

/-- Model of `load_hunyuan3d_models` (success path): each pipeline is loaded
only if its global is still `None`; the texture pipeline additionally only if
`enable_texture`; finally `model_loaded` is set. -/
def loadHunyuan3dModels (enableTexture : Bool) (s : ModelState) : ModelState :=
  let s1 :=
    if s.backgroundRemover then s
    else { s with
           backgroundRemover := true, bgLoadCount := s.bgLoadCount + 1 }
  let s2 :=
    if s1.shapePipeline then s1
    else { s1 with
           shapePipeline := true, shapeLoadCount := s1.shapeLoadCount + 1 }
  let s3 :=
    if enableTexture && !s2.texturePipeline then
      { s2 with
        texturePipeline := true, textureLoadCount := s2.textureLoadCount + 1 }
    else s2
  { s3 with modelLoaded := true }

/-- Model of `ensure_models_loaded`: return if `model_loaded`, else load with
the default arguments (`enable_texture=True`). -/
def ensureModelsLoaded (s : ModelState) : ModelState :=
  if s.modelLoaded then s else loadHunyuan3dModels true s

/-- The possible interleavings of two tasks that each consist of a single
atomic step: one runs entirely before the other. -/
def schedulesOfTwo {α : Type} (a b : α) : List (List α) :=
  [[a, b], [b, a]]

/-- Run a schedule of atomic state transformers from an initial state. -/
def runSchedule (sched : List (ModelState → ModelState)) (s : ModelState) :
    ModelState :=
  sched.foldl (fun st f => f st) s

/-! ### Claim predicates -/

/-- Decidable form of the terminal-state exclusivity invariant on one job
snapshot: `result` present iff completed, `error` present iff failed, never
both, and the terminal timestamps present exactly in the matching status. -/
def exclusivityB (r : JobRecord) : Bool :=
  (r.result.isSome == decide (r.status = .completed)) &&
  (r.error.isSome == decide (r.status = .failed)) &&
  (!(r.result.isSome && r.error.isSome)) &&
  (r.completedAt.isSome == decide (r.status = .completed)) &&
  (r.failedAt.isSome == decide (r.status = .failed))

/-- A list of naturals is non-decreasing. -/
def nondecreasing : List Nat → Bool
  | [] => true
  | [_] => true
  | a :: b :: l => decide (a ≤ b) && nondecreasing (b :: l)

/-- The progress values of exactly those snapshots whose status is
`processing`, in observation order. -/
def processingProgress (tr : List JobRecord) : List Nat :=
  (tr.filter (fun r => decide (r.status = .processing))).map (fun r => r.progress)

/-- A concrete generated mesh whose `visual` carries a `material` attribute. -/
def mesh0 : Mesh := { hasVisualMaterial := true, vertices := 10, faces := 20 }

/-- A record in the terminal completed state, as produced by an
exception-free run of the orchestrator. -/
def completedRec : JobRecord :=
  (processTrace true mesh0 "job-1" "e" none).getLastD initialRecord

/-- A concrete job store holding one completed and one queued job. -/
def store0 : List (String × JobRecord) :=
  [("done", completedRec), ("waiting", initialRecord)]

/-! ### Claims C1 and C2: job state machine invariants -/

/-- C1 (amended): for every run of `process_real_3d_generation` in which no
exception is raised after the terminal completed update (i.e. the failure
point, if any, is before the trailing `torch.cuda.empty_cache()` call that
sits inside the `try` block), every observable snapshot of the job record
satisfies the exclusivity invariant: `result` is populated iff the status is
`completed`, `error` is populated iff the status is `failed`, never both,
and `completed_at`/`failed_at` are present exactly in the matching terminal
status. -/
theorem C1_exclusivity_invariant (inc : Bool) (mesh : Mesh) (jobId err : String)
    (failAt : Option (Fin 8)) (h : failAt ≠ some 7) :
    (processTrace inc mesh jobId err failAt).all exclusivityB = true := by
  rcases failAt with _ | k
  · rfl
  · fin_cases k
    · rfl
    · rfl
    · rfl
    · rfl
    · rfl
    · rfl
    · rfl
    · exact absurd (by decide) h

/-- Witness for C1: the exception-free run satisfies the invariant at every
snapshot. -/
theorem C1_exclusivity_invariant_witness :
    (processTrace true mesh0 "job-1" "boom" none).all exclusivityB = true :=
  C1_exclusivity_invariant true mesh0 "job-1" "boom" none (by decide)

/-- Counterexample to C1 as stated: if the GPU cache clear that follows the
completed update raises, the `except` handler's `dict.update` flips the
status to `failed` and adds `error`/`failed_at` while leaving the already
written `result` and `completed_at` in place, so the job record carries both
`result` and `error` at once. -/
theorem C1_both_result_and_error :
    ((processTrace true mesh0 "job-1" "CUDA error" (some 7)).getLastD
        initialRecord).result.isSome = true ∧
    ((processTrace true mesh0 "job-1" "CUDA error" (some 7)).getLastD
        initialRecord).error.isSome = true ∧
    ((processTrace true mesh0 "job-1" "CUDA error" (some 7)).getLastD
        initialRecord).status = Status.failed ∧
    ((processTrace true mesh0 "job-1" "CUDA error" (some 7)).getLastD
        initialRecord).completedAt.isSome = true ∧
    ((processTrace true mesh0 "job-1" "CUDA error" (some 7)).getLastD
        initialRecord).failedAt.isSome = true :=
  ⟨rfl, rfl, rfl, rfl, rfl⟩

/-- C2: along every run of `process_real_3d_generation` — wherever (if
anywhere) an exception is raised — the progress values of the snapshots whose
status is `processing` form a non-decreasing sequence, and every snapshot
whose status is `completed` shows progress exactly 100. -/
theorem C2_progress_monotone (inc : Bool) (mesh : Mesh) (jobId err : String)
    (failAt : Option (Fin 8)) :
    nondecreasing (processingProgress (processTrace inc mesh jobId err failAt)) = true ∧
    (processTrace inc mesh jobId err failAt).all
      (fun r => !decide (r.status = .completed) || decide (r.progress = 100)) = true := by
  rcases failAt with _ | k
  · exact ⟨rfl, rfl⟩
  · fin_cases k <;> exact ⟨rfl, rfl⟩

/-! ### Claims C3, C4, C5: API surface -/

/-- C4: `GET /result/{job_id}` fails with 404 `"Job not found"` when the id
was never issued, fails with 400 `"Job not completed yet"` (a client error
distinct from the 404) when the job exists in any non-completed status, and
returns the stored generation result exactly when the status is
`completed`. -/
theorem C4_get_result_cases (store : List (String × JobRecord))
    (jobId : String) :
    (store.lookup jobId = none →
      getJobResult store jobId =
        .error { code := 404, detail := "Job not found" }) ∧
    (∀ r, store.lookup jobId = some r → r.status ≠ Status.completed →
      getJobResult store jobId =
        .error { code := 400, detail := "Job not completed yet" } ∧
      ({ code := 400, detail := "Job not completed yet" } : HErr) ≠
        { code := 404, detail := "Job not found" }) ∧
    (∀ r, store.lookup jobId = some r → r.status = Status.completed →
      getJobResult store jobId = .ok (r.result.getD emptyGenResult)) := by
  refine ⟨fun h => ?_, fun r h hne => ⟨?_, by decide⟩, fun r h hc => ?_⟩
  · simp [getJobResult, h]
  · simp [getJobResult, h, hne]
  · simp [getJobResult, h, hc]

/-- Witness for C4: the three cases exercised on a concrete store. -/
theorem C4_get_result_cases_witness :
    getJobResult store0 "missing" =
      .error { code := 404, detail := "Job not found" } ∧
    getJobResult store0 "waiting" =
      .error { code := 400, detail := "Job not completed yet" } ∧
    getJobResult store0 "done" = .ok (completedRec.result.getD emptyGenResult) :=
  ⟨(C4_get_result_cases store0 "missing").1 rfl,
   ((C4_get_result_cases store0 "waiting").2.1 initialRecord rfl (by decide)).1,
   (C4_get_result_cases store0 "done").2.2 completedRec rfl rfl⟩

/-- C5 (amended): a submission whose payload is not an image is rejected
synchronously before any job is created — both servers' `POST /generate3d`
leave the job store and the background task queue exactly as they were and
issue no job id — but the error surfaced to the caller is a 500 server
error wrapping the internal 400 message, not a 400 client error, because
the handler's catch-all `except Exception` converts the in-`try`
`HTTPException(400)` into `HTTPException(500, str(e))`. -/
theorem C5_reject_non_image (store : List (String × JobRecord))
    (tasks : List PendingTask) (psStore : List (String × PSJob))
    (psTasks : List String) (ct freshId : String) (inc : Bool)
    (h : contentTypeIsImage ct = false) :
    generate3dModel store tasks ct freshId inc =
      (.error (wrapServerError
         { code := 400, detail := "Only image files are supported" }),
       store, tasks) ∧
    generate3dModelPS psStore psTasks ct freshId =
      (.error (wrapServerError
         { code := 400, detail := "File must be an image" }),
       psStore, psTasks) ∧
    (wrapServerError
      { code := 400, detail := "Only image files are supported" }).code = 500 ∧
    (wrapServerError
      { code := 400, detail := "File must be an image" }).code = 500 := by
  refine ⟨?_, ?_, rfl, rfl⟩
  · simp [generate3dModel, h]
  · simp [generate3dModelPS, h]

/-- Witness for C5: a JSON payload is rejected by both servers as a 500 with
the stores untouched. -/
theorem C5_reject_non_image_witness :
    generate3dModel store0 [] "application/json" "job-2" true =
      (.error (wrapServerError
         { code := 400, detail := "Only image files are supported" }),
       store0, []) ∧
    generate3dModelPS [] [] "application/json" "job-2" =
      (.error (wrapServerError
         { code := 400, detail := "File must be an image" }), [], []) :=
  have h := C5_reject_non_image store0 [] [] [] "application/json" "job-2" true
    (by decide)
  ⟨h.1, h.2.1⟩

/-- Counterexample to C5 as stated: a concrete non-image submission is
rejected, but the error the caller observes carries status code 500, not
the claimed client-error 400 — the handlers' `except Exception` wrapper
re-raises the internal 400 as a 500. -/
theorem C5_rejected_as_500 :
    (generate3dModel store0 [] "application/json" "job-2" true).1 =
      .error (wrapServerError
        { code := 400, detail := "Only image files are supported" }) ∧
    (wrapServerError
      { code := 400, detail := "Only image files are supported" }).code = 500 ∧
    (wrapServerError
      { code := 400, detail := "Only image files are supported" }).code ≠ 400 ∧
    (generate3dModelPS [] [] "application/json" "job-2").1 =
      .error (wrapServerError
        { code := 400, detail := "File must be an image" }) ∧
    (wrapServerError
      { code := 400, detail := "File must be an image" }).code ≠ 400 :=
  ⟨rfl, rfl, by decide, rfl, by decide⟩

/-! ### Claims C6 and C9: Feature Estimator -/

/-- C6: for every list of detected contour areas the estimator derives
`walls = max(4, |large|/2)`, `doors = max(1, |medium|/3)`,
`windows = max(2, |small|/2)` and `rooms = max(1, walls/3)` with flooring
integer division; with zero detected contours it returns
`walls=4, doors=1, windows=2, rooms=1`; and the counts never drop below
those floors (in particular never zero). -/
theorem C6_estimator_floors (areas : List ℚ) :
    (analyzeCore areas).counts.walls = max 4 ((largeContours areas).length / 2) ∧
    (analyzeCore areas).counts.doors = max 1 ((mediumContours areas).length / 3) ∧
    (analyzeCore areas).counts.windows = max 2 ((smallContours areas).length / 2) ∧
    (analyzeCore areas).counts.rooms = max 1 ((analyzeCore areas).counts.walls / 3) ∧
    (areas = [] →
      (analyzeCore areas).counts =
        { walls := 4, doors := 1, windows := 2, rooms := 1 }) ∧
    4 ≤ (analyzeCore areas).counts.walls ∧
    1 ≤ (analyzeCore areas).counts.doors ∧
    2 ≤ (analyzeCore areas).counts.windows ∧
    1 ≤ (analyzeCore areas).counts.rooms := by
  refine ⟨rfl, rfl, rfl, rfl, fun h => by subst h; rfl, ?_, ?_, ?_, ?_⟩
  · exact le_max_left 4 _
  · exact le_max_left 1 _
  · exact le_max_left 2 _
  · exact le_max_left 1 _

/-- Witness for C6: an empty contour list yields exactly the floor counts. -/
theorem C6_estimator_floors_witness :
    (analyzeCore []).counts =
      { walls := 4, doors := 1, windows := 2, rooms := 1 } :=
  (C6_estimator_floors []).2.2.2.2.1 rfl

/-- C9: `analyze_image_advanced` is total — whether or not one of its
internal external calls raises, it returns an analysis whose element counts
are all at least one; when a failure is raised it returns exactly the
degraded fallback payload (`walls=8, doors=3, windows=6, rooms=4,
complexity_score=50` plus the error string) instead of propagating, and on
the failure-free path it returns the normal analysis. -/
theorem C9_analyzer_never_raises (failure : Option String) (areas : List ℚ) :
    1 ≤ (analyzeImageAdvanced failure areas).counts.walls ∧
    1 ≤ (analyzeImageAdvanced failure areas).counts.doors ∧
    1 ≤ (analyzeImageAdvanced failure areas).counts.windows ∧
    1 ≤ (analyzeImageAdvanced failure areas).counts.rooms ∧
    (∀ e, failure = some e →
      analyzeImageAdvanced failure areas = fallbackAnalysis e) ∧
    (failure = none → analyzeImageAdvanced failure areas = analyzeCore areas) := by
  rcases failure with _ | e
  · refine ⟨?_, ?_, ?_, ?_, ?_, ?_⟩
    · exact le_trans (by omega) (le_max_left 4 _)
    · exact le_max_left 1 _
    · exact le_trans (by omega) (le_max_left 2 _)
    · exact le_max_left 1 _
    · exact fun e h => Option.noConfusion h
    · exact fun _ => rfl
  · refine ⟨(by omega : (1 : Nat) ≤ 8), (by omega : (1 : Nat) ≤ 3),
      (by omega : (1 : Nat) ≤ 6), (by omega : (1 : Nat) ≤ 4), ?_, ?_⟩
    · intro e' h
      cases h
      rfl
    · exact fun h => Option.noConfusion h

/-- Witness for C9: a concrete internal failure yields the fallback payload,
and the failure-free path yields the normal analysis. -/
theorem C9_analyzer_never_raises_witness :
    analyzeImageAdvanced (some "cv2 conversion failed") [] =
      fallbackAnalysis "cv2 conversion failed" ∧
    analyzeImageAdvanced none [] = analyzeCore [] :=
  ⟨(C9_analyzer_never_raises (some "cv2 conversion failed") []).2.2.2.2.1
      "cv2 conversion failed" rfl,
   (C9_analyzer_never_raises none []).2.2.2.2.2 rfl⟩

/-! ### Claim C7: at-most-once model load -/

/-- C7: two concurrent invocations of the lazy model load — each an atomic
step under asyncio's cooperative scheduler, since neither
`ensure_models_loaded` nor `load_hunyuan3d_models` contains a suspension
point — serialize into one of the two possible schedules, and every schedule
performs exactly one underlying initialization of each pipeline (background
remover, shape, texture) and leaves `model_loaded` set, with both callers
returning normally. -/
theorem C7_load_at_most_once (sched : List (ModelState → ModelState))
    (h : sched ∈ schedulesOfTwo ensureModelsLoaded ensureModelsLoaded) :
    (runSchedule sched initialModelState).bgLoadCount = 1 ∧
    (runSchedule sched initialModelState).shapeLoadCount = 1 ∧
    (runSchedule sched initialModelState).textureLoadCount = 1 ∧
    (runSchedule sched initialModelState).modelLoaded = true := by
  simp only [schedulesOfTwo, List.mem_cons, List.not_mem_nil, or_false] at h
  rcases h with rfl | rfl <;> exact ⟨rfl, rfl, rfl, rfl⟩

/-- Witness for C7: the first-caller-first schedule loads each pipeline
exactly once. -/
theorem C7_load_at_most_once_witness :
    (runSchedule [ensureModelsLoaded, ensureModelsLoaded]
        initialModelState).bgLoadCount = 1 ∧
    (runSchedule [ensureModelsLoaded, ensureModelsLoaded]
        initialModelState).shapeLoadCount = 1 ∧
    (runSchedule [ensureModelsLoaded, ensureModelsLoaded]
        initialModelState).textureLoadCount = 1 ∧
    (runSchedule [ensureModelsLoaded, ensureModelsLoaded]
        initialModelState).modelLoaded = true :=
  C7_load_at_most_once [ensureModelsLoaded, ensureModelsLoaded]
    (List.mem_cons_self _ _)

/-! ### Claims C8 and C10: artifact map and texture entry -/

/-- C8 (amended): the artifact map of every completed job always contains
the `model_glb` and `model_obj` entries, and it contains a texture entry iff
the generated mesh carries a `visual.material` attribute — independently of
the `include_textures` parameter the job was submitted with. -/
theorem C8_artifact_map (inc : Bool) (mesh : Mesh) (jobId err : String) :
    ((processTrace inc mesh jobId err none).getLastD initialRecord).status =
      Status.completed ∧
    ((((processTrace inc mesh jobId err none).getLastD
        initialRecord).result.getD emptyGenResult).paths.lookup
        "model_glb_path").isSome = true ∧
    ((((processTrace inc mesh jobId err none).getLastD
        initialRecord).result.getD emptyGenResult).paths.lookup
        "model_obj_path").isSome = true ∧
    ((((processTrace inc mesh jobId err none).getLastD
        initialRecord).result.getD emptyGenResult).paths.lookup
        "texture_path").isSome = mesh.hasVisualMaterial := by
  rcases mesh with ⟨hvm, v, f⟩
  cases hvm <;> exact ⟨rfl, rfl, rfl, rfl⟩

/-- Counterexample to C8 as stated: a job submitted with
`include_textures=false` whose (untextured) mesh nevertheless has a
`visual.material` attribute completes with an artifact map that contains the
texture entries, because `save_real_generated_model` keys the texture branch
on the mesh attribute and never consults `include_textures`. -/
theorem C8_texture_despite_flag :
    ((processTrace false mesh0 "job-1" "e" none).getLastD initialRecord).status =
      Status.completed ∧
    ((((processTrace false mesh0 "job-1" "e" none).getLastD
        initialRecord).result.getD emptyGenResult).includeTextures = false) ∧
    ((((processTrace false mesh0 "job-1" "e" none).getLastD
        initialRecord).result.getD emptyGenResult).paths.lookup "texture_path") =
      some "./outputs/job-1/job-1_texture.png" ∧
    ((((processTrace false mesh0 "job-1" "e" none).getLastD
        initialRecord).result.getD emptyGenResult).paths.lookup "texture_url") =
      some "/download/job-1/texture" :=
  ⟨rfl, rfl, rfl, rfl⟩

/-- C10: a completed job whose mesh has a `visual.material` attribute
advertises `texture_path`/`texture_url` in its result even though
`save_real_generated_model` wrote only the GLB, OBJ and processed-image
files; consequently `GET /download/{job_id}/texture` fails with 404
`"texture file not found"` while `model_glb` downloads succeed. -/
theorem C10_texture_advertised_but_missing :
    ((completedRec.result.getD emptyGenResult).paths.lookup "texture_path") =
      some "./outputs/job-1/job-1_texture.png" ∧
    ((completedRec.result.getD emptyGenResult).paths.lookup "texture_url") =
      some "/download/job-1/texture" ∧
    (saveRealGeneratedModel "job-1" mesh0).2.contains
      "./outputs/job-1/job-1_texture.png" = false ∧
    downloadResult [("job-1", completedRec)]
        (saveRealGeneratedModel "job-1" mesh0).2 "job-1" "texture" =
      .error { code := 404, detail := "texture file not found" } ∧
    downloadResult [("job-1", completedRec)]
        (saveRealGeneratedModel "job-1" mesh0).2 "job-1" "model_glb" =
      .ok ("./outputs/job-1/job-1.glb", "job-1_model_glb") :=
  ⟨rfl, rfl, rfl, rfl, rfl⟩

end ConstructAI
